import Mathlib

/-!
Shallow embedding of `src/oracle_adb.py` (class `OracleADB`): the
natural-language-to-SQL pipeline (analyze_query, get_schema_info,
natural_language_to_sql) and the database gateway (test_connection,
execute_sql), together with theorems settling the specification claims.

Python strings are modelled as Lean `String`; the Python string helpers
used by the source (`strip`, `lower`, `upper`, `split('\n')`,
`startswith`) are re-implemented below on `List Char` with structural
recursion so that every definition is executable and decidable.
-/

namespace PyADB

/-- Python `str.strip()` on the left: drop leading whitespace. -/
def dropWS (l : List Char) : List Char := l.dropWhile Char.isWhitespace

/-- Python `str.strip()` on a character list: drop leading and trailing whitespace. -/
def trimChars (l : List Char) : List Char := ((dropWS l.reverse).reverse) |> dropWS

/-- Python `str.strip()`. -/
def pyStrip (s : String) : String := ⟨trimChars s.data⟩

/-- Python `str.lower()` (ASCII letters; other characters unchanged, which
matches every use in the source: SQL keywords and the Chinese sentinel). -/
def pyLower (s : String) : String := ⟨s.data.map Char.toLower⟩

/-- Python `str.upper()` (ASCII letters; other characters unchanged). -/
def pyUpper (s : String) : String := ⟨s.data.map Char.toUpper⟩

/-- `startsWith` on character lists, structural recursion. -/
def listStartsWith : List Char → List Char → Bool
  | _, [] => true
  | [], _ :: _ => false
  | a :: as, b :: bs => if a = b then listStartsWith as bs else false

/-- Python `s.startswith(p)`. -/
def pyStartsWith (s p : String) : Bool := listStartsWith s.data p.data

/-- Python `s.split(c)` for a single-character separator: `"".split(c) = [""]`. -/
def splitChar (c : Char) : List Char → List (List Char)
  | [] => [[]]
  | d :: rest =>
    let r := splitChar c rest
    if d = c then [] :: r
    else
      match r with
      | [] => [[d]]
      | h :: t => (d :: h) :: t

/-- Python `', '.join(l)`. -/
def joinComma : List String → String
  | [] => ""
  | [s] => s
  | s :: rest => s ++ ", " ++ joinComma rest

/-!
## SQL Synthesizer validation gate

`natural_language_to_sql`, lines 326-334 of `src/oracle_adb.py`:

    sql = response.choices[0].message.content.strip()
    if sql.lower().startswith(("select", "with")):
        return True, "成功生成SQL查询", sql
    elif sql == "无法生成有效的SQL查询":
        return False, "无法理解该问题或生成对应的SQL查询", None
    else:
        return False, "生成的SQL不是有效的查询语句", None
-/

/-- The fixed refusal sentinel the prompt instructs the model to emit
(line 306 / compared at line 331). -/
def refusalSentinel : String := "无法生成有效的SQL查询"

/-- Whether the trimmed completion text passes the SELECT/WITH gate
(line 329: `sql.lower().startswith(("select", "with"))`). -/
def gatePasses (sql : String) : Bool :=
  pyStartsWith (pyLower sql) "select" || pyStartsWith (pyLower sql) "with"

/-- Post-processing of the raw completion text in `natural_language_to_sql`
(lines 326-334), returning the `(success, message, sql)` triple. -/
def validateSQL (raw : String) : Bool × String × Option String :=
  let sql := pyStrip raw
  if gatePasses sql then (true, "成功生成SQL查询", some sql)
  else if sql = refusalSentinel then
    (false, "无法理解该问题或生成对应的SQL查询", none)
  else (false, "生成的SQL不是有效的查询语句", none)

/-- The leading whitespace-delimited token of a statement (used to state
the spec's "leading token is SELECT or WITH" invariant). -/
def leadingToken (s : String) : String :=
  ⟨(pyStrip s).data.takeWhile (fun c => !c.isWhitespace)⟩

/-!
## Table Identifier: `analyze_query` (lines 166-209)

The language-model transport is modelled as an `Except String String`:
`.error e` is an exception raised by the OpenAI client (caught at line
207), `.ok raw` is `response.choices[0].message.content`.
-/

/-- The "unknown" sentinel the analyze prompt instructs the model to emit
(line 182, compared at line 199 after `.lower()`). -/
def unknownSentinel : String := "未知"

/-- Line 200 of `analyze_query`: the list comprehension
`[table.strip().upper() for table in result.split('\n') if table.strip()]`
over the already-stripped response text `result`. -/
def parsedLines (result : String) : List String :=
  ((splitChar '\n' result.data).filter
      (fun line => !(trimChars line).isEmpty)).map
    (fun line => pyUpper ⟨trimChars line⟩)

/-- Lines 197-200: `tables` as computed from the stripped response text,
including the sentinel comparison `result.lower() != "未知"`. -/
def parsedTables (result : String) : List String :=
  if pyLower result = unknownSentinel then [] else parsedLines result

/-- `analyze_query` (lines 166-209) as a function of the language-model
transport outcome: the returned `(success, message, tables)` triple. -/
def analyze_query (resp : Except String String) :
    Bool × String × Option (List String) :=
  match resp with
  | .error e => (false, "分析查询失败: " ++ e, none)
  | .ok raw =>
    let result := pyStrip raw
    let tables := parsedTables result
    if tables.isEmpty then (false, "无法确定查询涉及的表", none)
    else (true, "识别到相关表: " ++ joinComma tables, some tables)

/-!
## Database Gateway: `test_connection` (lines 83-113) and
`execute_sql` (lines 115-148)

The oracledb driver interaction is modelled as an `Except String _`
outcome: `.error e` is any exception raised inside the `try` block
(caught and converted at lines 111-113 / 146-148), `.ok` is the data
read from the connection.
-/

/-- A scalar value in a result-set cell. -/
inductive SqlValue where
  | intV (i : Int)
  | strV (s : String)
  | nullV
deriving DecidableEq, Repr

/-- Driver-side observation of a cursor after `cursor.execute(sql_query)`:
`description` is `None` for statements producing no result set, and the
driver's `rowcount` is `-1` when the affected-row count is unknown. -/
structure Cursor where
  description : Option (List String)
  rows : List (List SqlValue)
  rowcount : Int
deriving DecidableEq, Repr

/-- Python truthiness of `cursor.description` (lines 134/135/143):
`None` and the empty sequence are both falsy. -/
def descTruthy (c : Cursor) : Bool :=
  match c.description with
  | none => false
  | some l => !l.isEmpty

/-- The data dictionary built by `execute_sql` (lines 139-144). -/
structure ExecData where
  columns : List String
  results : List (List SqlValue)
  execution_time : Nat
  affected_rows : Option Int
deriving DecidableEq, Repr

/-- `execute_sql` (lines 115-148) as a function of the driver outcome and
the measured elapsed milliseconds: the `(success, message, data)` triple. -/
def execute_sql (drv : Except String Cursor) (elapsed : Nat) :
    Bool × String × Option ExecData :=
  match drv with
  | .error e => (false, e, none)
  | .ok cur =>
    (true, "执行成功",
      some { columns := if descTruthy cur then cur.description.getD [] else []
             results := if descTruthy cur then cur.rows else []
             execution_time := elapsed
             affected_rows := if descTruthy cur then none else some cur.rowcount })

/-- The data dictionary built by `test_connection` (lines 104-109). -/
structure TestData where
  response_time : Nat
  date : String
  version : String
  banner : String
deriving DecidableEq, Repr

/-- `test_connection` (lines 83-113) as a function of the driver outcome:
the `(success, message, data)` triple. -/
def test_connection (drv : Except String TestData) :
    Bool × String × Option TestData :=
  match drv with
  | .error e => (false, e, none)
  | .ok d => (true, "连接成功", some d)

/-!
## Connection profile and SSL context: `__init__` (lines 37-58),
`_setup_ssl` (lines 67-72), `get_connection_params` (lines 74-81)

SSL contexts are given an allocation identity (`id`): `_setup_ssl`
consumes one fresh id from an allocation counter, so that "the same
context handle is reused" versus "a context is reconstructed on each
call" is observable in the model.
-/

/-- An `ssl.SSLContext` handle as configured by `_setup_ssl`: identity
plus the two fields the source sets (lines 69-71). -/
structure SSLContext where
  id : Nat
  check_hostname : Bool
  verify_cert_none : Bool
deriving DecidableEq, Repr

/-- `_setup_ssl` (lines 67-72): builds a context with hostname checking
off and certificate verification disabled, consuming one fresh id. -/
def setup_ssl (fresh : Nat) : SSLContext :=
  { id := fresh, check_hostname := false, verify_cert_none := true }

/-- The attributes `__init__` stores on the object (lines 45-51). -/
structure ADBState where
  username : String
  password : String
  connect_string : String
  ssl_context : SSLContext
deriving DecidableEq, Repr

/-- `__init__` (lines 37-58) together with the allocation counter: the
SSL context is created once here and cached on the object (line 51). -/
def initADB (u p cs : String) (alloc : Nat) : ADBState × Nat :=
  ({ username := u, password := p, connect_string := cs,
     ssl_context := setup_ssl alloc }, alloc + 1)

/-- The dictionary returned by `get_connection_params` (lines 74-81). -/
structure ConnParams where
  user : String
  password : String
  dsn : String
  ssl_context : SSLContext
deriving DecidableEq, Repr

/-- `get_connection_params` (lines 74-81): reads the stored attributes,
including the cached `self.ssl_context`; it allocates nothing and leaves
the object unchanged. -/
def get_connection_params (s : ADBState) : ConnParams :=
  { user := s.username, password := s.password, dsn := s.connect_string,
    ssl_context := s.ssl_context }

/-- A public gateway operation; each one (lines 94, 129, 157) opens its
connection via `oracledb.connect(**self.get_connection_params())`. -/
inductive GatewayOp where
  | testConn
  | execSql (sql : String)
  | getVer
deriving DecidableEq, Repr

/-- Effect of one gateway operation on the object state and the
allocation counter: the source mutates no attribute and constructs no
new SSL context, so the state passes through unchanged. -/
def stepState (st : ADBState × Nat) (_ : GatewayOp) : ADBState × Nat := st

/-!
## Schema Catalog Builder: `get_schema_info` (lines 211-271)

The catalog views referenced by the introspection SQL (lines 222-236)
are modelled as row lists, and the query itself — three LEFT JOINs from
`user_tables`, the optional `WHERE t.table_name IN (...)` filter (lines
239-241), and the `ORDER BY t.table_name, c.column_id` (line 243) — is
modelled with standard SQL semantics.  The IN-list is built by string
interpolation in the source (line 240); the model gives it the exact
set-membership meaning it has whenever the supplied names contain no
quote character.
-/

/-- A row of `user_tables` (only the selected/joined column). -/
structure TableRow where
  table_name : String
deriving DecidableEq, Repr

/-- A row of `user_tab_comments`; `comments` is nullable. -/
structure TabCommentRow where
  table_name : String
  comments : Option String
deriving DecidableEq, Repr

/-- A row of `user_tab_columns`. -/
structure ColumnRow where
  table_name : String
  column_name : String
  data_type : String
  data_length : Int
  nullable : String
  column_id : Int
deriving DecidableEq, Repr

/-- A row of `user_col_comments`; `comments` is nullable. -/
structure ColCommentRow where
  table_name : String
  column_name : String
  comments : Option String
deriving DecidableEq, Repr

/-- The four catalog views the introspection query reads. -/
structure Catalog where
  user_tables : List TableRow
  user_tab_comments : List TabCommentRow
  user_tab_columns : List ColumnRow
  user_col_comments : List ColCommentRow
deriving DecidableEq, Repr

/-- One row of the introspection query's result set: the seven selected
columns (lines 223-230) plus the `column_id` used only by the ORDER BY.
Columns coming from the right side of a LEFT JOIN are nullable. -/
structure SchemaRow where
  table_name : String
  table_comment : Option String
  column_name : Option String
  data_type : Option String
  data_length : Option Int
  nullable : Option String
  column_comment : Option String
  column_id : Option Int
deriving DecidableEq, Repr

/-- Assemble one result row from the joined (possibly absent) sides. -/
def mkRow (t : TableRow) (tc : Option TabCommentRow) (c : Option ColumnRow)
    (cc : Option ColCommentRow) : SchemaRow :=
  { table_name := t.table_name
    table_comment := tc.bind (fun x => x.comments)
    column_name := c.map (fun x => x.column_name)
    data_type := c.map (fun x => x.data_type)
    data_length := c.map (fun x => x.data_length)
    nullable := c.map (fun x => x.nullable)
    column_comment := cc.bind (fun x => x.comments)
    column_id := c.map (fun x => x.column_id) }

/-- LEFT JOIN preservation of the left row: a list of matches becomes
`[none]` when empty (the left row survives with NULLs), otherwise each
match contributes one output row. -/
def leftOpt {α : Type} (l : List α) : List (Option α) :=
  if l.isEmpty then [none] else l.map some

/-- All result rows contributed by one `user_tables` row under the three
LEFT JOINs of the introspection query (lines 231-235). -/
def rowsForTable (cat : Catalog) (t : TableRow) : List SchemaRow :=
  (leftOpt (cat.user_tab_comments.filter
      (fun tc => tc.table_name == t.table_name))).flatMap fun tcJ =>
    (leftOpt (cat.user_tab_columns.filter
        (fun c => c.table_name == t.table_name))).flatMap fun cJ =>
      match cJ with
      | none => [mkRow t tcJ none none]
      | some c =>
        (leftOpt (cat.user_col_comments.filter
            (fun cc => cc.table_name == c.table_name &&
              cc.column_name == c.column_name))).map fun ccJ =>
          mkRow t tcJ (some c) ccJ

/-- The full join (FROM plus the three LEFT JOINs). -/
def joinRows (cat : Catalog) : List SchemaRow :=
  cat.user_tables.flatMap (rowsForTable cat)

/-- The optional `WHERE t.table_name IN (...)` restriction: Python
truthiness at line 239 makes `None` and the empty list both mean "no
filter". -/
def keepTable (tables : Option (List String)) (name : String) : Bool :=
  match tables with
  | none => true
  | some ts => if ts.isEmpty then true else ts.contains name

/-- Lexicographic character-list comparison for the ORDER BY. -/
def listLE : List Char → List Char → Bool
  | [], _ => true
  | _ :: _, [] => false
  | a :: as, b :: bs =>
    if a.toNat < b.toNat then true
    else if b.toNat < a.toNat then false
    else listLE as bs

/-- String comparison for the ORDER BY. -/
def strLE (a b : String) : Bool := listLE a.data b.data

/-- `column_id` comparison with NULLS LAST (Oracle ascending default). -/
def optIntLE : Option Int → Option Int → Bool
  | some a, some b => a ≤ b
  | some _, none => true
  | none, some _ => false
  | none, none => true

/-- The `ORDER BY t.table_name, c.column_id` key (line 243). -/
def rowLE (a b : SchemaRow) : Bool :=
  if a.table_name = b.table_name then optIntLE a.column_id b.column_id
  else strLE a.table_name b.table_name

/-- Insertion into a sorted list. -/
def insertLE {α : Type} (le : α → α → Bool) (a : α) : List α → List α
  | [] => [a]
  | b :: l => if le a b then a :: b :: l else b :: insertLE le a l

/-- Insertion sort used to model the ORDER BY. -/
def sortLE {α : Type} (le : α → α → Bool) : List α → List α
  | [] => []
  | a :: l => insertLE le a (sortLE le l)

/-- The result set of the introspection query built at lines 222-243,
for a given catalog and optional table filter. -/
def schemaQueryRows (cat : Catalog) (tables : Option (List String)) :
    List SchemaRow :=
  sortLE rowLE ((joinRows cat).filter (fun r => keepTable tables r.table_name))

/-- One column entry appended at lines 259-265: `nullable` is the
comparison `row[5] == 'Y'` and the comments fall back to `''`. -/
structure SchemaColumn where
  name : Option String
  type : Option String
  length : Option Int
  nullable : Bool
  comment : String
deriving DecidableEq, Repr

/-- The per-table entry of `schema_info` (lines 254-257). -/
structure SchemaTable where
  comment : String
  columns : List SchemaColumn
deriving DecidableEq, Repr

/-- The column dictionary built from one result row (lines 259-265). -/
def mkCol (r : SchemaRow) : SchemaColumn :=
  { name := r.column_name, type := r.data_type, length := r.data_length,
    nullable := r.nullable == some "Y", comment := r.column_comment.getD "" }

/-- `schema_info` is a Python dict keyed by `row[0]`; modelled as an
insertion-ordered association list. -/
def SchemaInfo : Type := List (String × SchemaTable)

/-- Whether `table_name in schema_info` (line 253). -/
def hasKey (info : List (String × SchemaTable)) (t : String) : Bool :=
  info.any (fun kv => kv.1 == t)

/-- One iteration of the loop at lines 251-265: insert the key if new
(lines 253-257), then append the column entry (lines 259-265). -/
def addRow (acc : List (String × SchemaTable)) (r : SchemaRow) :
    List (String × SchemaTable) :=
  let acc1 :=
    if hasKey acc r.table_name then acc
    else acc ++ [(r.table_name, { comment := r.table_comment.getD "",
                                  columns := [] })]
  acc1.map fun kv =>
    if kv.1 = r.table_name then (kv.1, { kv.2 with columns := kv.2.columns ++ [mkCol r] })
    else kv

/-- The loop at lines 250-265 folding the flat result rows into
`schema_info`. -/
def buildSchemaInfo (rows : List SchemaRow) : List (String × SchemaTable) :=
  rows.foldl addRow []

/-- `get_schema_info` (lines 211-271) as a function of the gateway
outcome for the introspection query: the `(success, message, data)`
triple (failure propagation at lines 246-247). -/
def get_schema_info (gw : Except String (List SchemaRow)) :
    Bool × String × Option (List (String × SchemaTable)) :=
  match gw with
  | .error m => (false, "获取schema失败: " ++ m, none)
  | .ok rows => (true, "获取schema成功", some (buildSchemaInfo rows))

/-- `get_schema_info` against a reachable catalog: the gateway executes
the introspection query over `cat`. -/
def get_schema_info_cat (cat : Catalog) (tables : Option (List String)) :
    Bool × String × Option (List (String × SchemaTable)) :=
  get_schema_info (.ok (schemaQueryRows cat tables))

/-!
## `natural_language_to_sql` (lines 273-338)

The pipeline: `analyze_query` (line 283), `get_schema_info` (line 288),
then one completion call whose transport outcome is `.error e`
(caught at lines 336-338) or `.ok raw` (validated at lines 326-334).
-/

/-- `natural_language_to_sql` (lines 273-338) as a function of the three
external outcomes it consumes. -/
def natural_language_to_sql (aResp : Except String String)
    (gw : Except String (List SchemaRow)) (sResp : Except String String) :
    Bool × String × Option String :=
  let a := analyze_query aResp
  if !a.1 then (false, a.2.1, none)
  else
    let g := get_schema_info gw
    if !g.1 then (false, g.2.1, none)
    else
      match sResp with
      | .error e => (false, "调用OpenAI失败: " ++ e, none)
      | .ok raw => validateSQL raw

/-- Per-call reconstruction of the connection parameters as the spec's
concurrency invariant describes them ("every execution path reconstructs
transport state (SSL context) from it rather than caching mutable
handles"): a fresh SSL context is allocated on every call.  Stated only
for comparison with `get_connection_params`, which the source actually
implements. -/
def specReconstructParams (s : ADBState) (alloc : Nat) : ConnParams × Nat :=
  ({ user := s.username, password := s.password, dsn := s.connect_string,
     ssl_context := setup_ssl alloc }, alloc + 1)

/-!
# Helper lemmas
-/

theorem listStartsWith_nil : ∀ l : List Char, listStartsWith l [] = true
  | [] => rfl
  | _ :: _ => rfl

theorem listStartsWith_append (p : List Char) :
    ∀ l m : List Char, listStartsWith l p = true →
      listStartsWith (l ++ m) p = true := by
  induction p with
  | nil => intro l m _; exact listStartsWith_nil (l ++ m)
  | cons b bs ih =>
    intro l m h
    cases l with
    | nil => simp [listStartsWith] at h
    | cons a as =>
      simp only [listStartsWith, List.cons_append] at h ⊢
      by_cases hab : a = b
      · simpa [hab] using ih as m (by simpa [hab] using h)
      · simp [hab] at h

theorem strData_append (s t : String) : (s ++ t).data = s.data ++ t.data := rfl

theorem pyStartsWith_of_append (s e p : String)
    (h : listStartsWith s.data p.data = true) :
    pyStartsWith (s ++ e) p = true := by
  unfold pyStartsWith
  rw [strData_append]
  exact listStartsWith_append p.data s.data e.data h

theorem mem_insertLE {α : Type} (le : α → α → Bool) (x a : α) :
    ∀ l : List α, a ∈ insertLE le x l ↔ a = x ∨ a ∈ l
  | [] => by simp [insertLE]
  | b :: l => by
    simp only [insertLE]
    by_cases h : le x b = true
    · simp [h]
    · simp only [h, if_false, Bool.false_eq_true, List.mem_cons,
        mem_insertLE le x a l]
      tauto

theorem mem_sortLE {α : Type} (le : α → α → Bool) (a : α) :
    ∀ l : List α, a ∈ sortLE le l ↔ a ∈ l
  | [] => Iff.rfl
  | b :: l => by
    simp only [sortLE, mem_insertLE, mem_sortLE le a l, List.mem_cons]

theorem exists_mem_leftOpt {α : Type} : ∀ l : List α, ∃ x, x ∈ leftOpt l
  | [] => ⟨none, by simp [leftOpt]⟩
  | a :: l => ⟨some a, by simp [leftOpt]⟩

theorem mem_rowsForTable_name (cat : Catalog) (t : TableRow) (r : SchemaRow)
    (h : r ∈ rowsForTable cat t) : r.table_name = t.table_name := by
  unfold rowsForTable at h
  simp only [List.mem_flatMap] at h
  obtain ⟨tcJ, _, h⟩ := h
  obtain ⟨cJ, _, h⟩ := h
  match cJ, h with
  | none, h =>
    rw [List.mem_singleton] at h
    subst h; rfl
  | some c, h =>
    simp only [List.mem_map] at h
    obtain ⟨ccJ, _, h⟩ := h
    subst h; rfl

theorem rowsForTable_nonempty (cat : Catalog) (t : TableRow) :
    ∃ r, r ∈ rowsForTable cat t := by
  obtain ⟨tcJ, htc⟩ := exists_mem_leftOpt (cat.user_tab_comments.filter
    (fun tc => tc.table_name == t.table_name))
  obtain ⟨cJ, hc⟩ := exists_mem_leftOpt (cat.user_tab_columns.filter
    (fun c => c.table_name == t.table_name))
  unfold rowsForTable
  match cJ, hc with
  | none, hc =>
    exact ⟨mkRow t tcJ none none, by
      simp only [List.mem_flatMap]
      exact ⟨tcJ, htc, none, hc, List.mem_singleton.mpr rfl⟩⟩
  | some c, hc =>
    obtain ⟨ccJ, hcc⟩ := exists_mem_leftOpt (cat.user_col_comments.filter
      (fun cc => cc.table_name == c.table_name &&
        cc.column_name == c.column_name))
    exact ⟨mkRow t tcJ (some c) ccJ, by
      simp only [List.mem_flatMap]
      exact ⟨tcJ, htc, some c, hc, List.mem_map.mpr ⟨ccJ, hcc, rfl⟩⟩⟩

theorem mem_joinRows_name (cat : Catalog) (r : SchemaRow)
    (h : r ∈ joinRows cat) :
    ∃ tr ∈ cat.user_tables, r.table_name = tr.table_name := by
  rw [joinRows, List.mem_flatMap] at h
  obtain ⟨tr, htr, hrt⟩ := h
  exact ⟨tr, htr, mem_rowsForTable_name cat tr r hrt⟩

theorem exists_joinRow_iff (cat : Catalog) (t : String) :
    (∃ r ∈ joinRows cat, r.table_name = t) ↔
      ∃ tr ∈ cat.user_tables, tr.table_name = t := by
  constructor
  · rintro ⟨r, hr, hname⟩
    obtain ⟨tr, htr, heq⟩ := mem_joinRows_name cat r hr
    exact ⟨tr, htr, heq ▸ hname⟩
  · rintro ⟨tr, htr, rfl⟩
    obtain ⟨r, hr⟩ := rowsForTable_nonempty cat tr
    refine ⟨r, ?_, mem_rowsForTable_name cat tr r hr⟩
    rw [joinRows, List.mem_flatMap]
    exact ⟨tr, htr, hr⟩

theorem hasKey_iff (info : List (String × SchemaTable)) (t : String) :
    hasKey info t = true ↔ ∃ kv ∈ info, kv.1 = t := by
  simp [hasKey, List.any_eq_true]

theorem hasKey_map_update (r : SchemaRow) (t : String) :
    ∀ l : List (String × SchemaTable),
      hasKey (l.map (fun kv =>
        if kv.1 = r.table_name
        then (kv.1, { kv.2 with columns := kv.2.columns ++ [mkCol r] })
        else kv)) t = hasKey l t
  | [] => rfl
  | kv :: l => by
    have ih := hasKey_map_update r t l
    simp only [hasKey, List.any_map] at ih
    simp only [List.map_cons, hasKey, List.any_cons, List.any_map]
    by_cases h : kv.1 = r.table_name <;> simp [h, ih]

theorem hasKey_addRow (acc : List (String × SchemaTable)) (r : SchemaRow)
    (t : String) :
    hasKey (addRow acc r) t = true ↔
      hasKey acc t = true ∨ r.table_name = t := by
  simp only [addRow]
  rw [hasKey_map_update]
  by_cases hk : hasKey acc r.table_name = true
  · rw [if_pos hk]
    constructor
    · exact Or.inl
    · rintro (h | rfl)
      · exact h
      · exact hk
  · rw [if_neg hk]
    simp only [hasKey, List.any_append, List.any_cons, List.any_nil,
      Bool.or_false, Bool.or_eq_true, beq_iff_eq] at *

theorem hasKey_foldl (t : String) :
    ∀ (rows : List SchemaRow) (acc : List (String × SchemaTable)),
      hasKey (rows.foldl addRow acc) t = true ↔
        hasKey acc t = true ∨ ∃ r ∈ rows, r.table_name = t
  | [], acc => by simp
  | r :: rows, acc => by
    simp only [List.foldl_cons, hasKey_foldl t rows, hasKey_addRow,
      List.mem_cons]
    constructor
    · rintro ((h | h) | ⟨r', hr', h⟩)
      · exact Or.inl h
      · exact Or.inr ⟨r, Or.inl rfl, h⟩
      · exact Or.inr ⟨r', Or.inr hr', h⟩
    · rintro (h | ⟨r', (rfl | hr'), h⟩)
      · exact Or.inl (Or.inl h)
      · exact Or.inl (Or.inr h)
      · exact Or.inr ⟨r', hr', h⟩

theorem hasKey_buildSchemaInfo (rows : List SchemaRow) (t : String) :
    hasKey (buildSchemaInfo rows) t = true ↔ ∃ r ∈ rows, r.table_name = t := by
  rw [buildSchemaInfo, hasKey_foldl]
  simp [hasKey]

theorem mem_schemaQueryRows (cat : Catalog) (tables : Option (List String))
    (r : SchemaRow) :
    r ∈ schemaQueryRows cat tables ↔
      r ∈ joinRows cat ∧ keepTable tables r.table_name = true := by
  rw [schemaQueryRows, mem_sortLE, List.mem_filter]

theorem validateSQL_success_iff (raw : String) :
    (validateSQL raw).1 = true ↔ ((validateSQL raw).2.2).isSome = true := by
  simp only [validateSQL]
  by_cases h : gatePasses (pyStrip raw) = true
  · simp [h]
  · rw [if_neg h]
    by_cases h2 : pyStrip raw = refusalSentinel
    · rw [if_pos h2]; simp
    · rw [if_neg h2]; simp

theorem keepTable_single (t k : String) :
    keepTable (some [t]) k = true ↔ k = t := by
  simp [keepTable]

theorem hasKey_schemaQuery (cat : Catalog) (tables : Option (List String))
    (t : String) :
    hasKey (buildSchemaInfo (schemaQueryRows cat tables)) t = true ↔
      (∃ tr ∈ cat.user_tables, tr.table_name = t)
        ∧ keepTable tables t = true := by
  rw [hasKey_buildSchemaInfo]
  constructor
  · rintro ⟨r, hr, rfl⟩
    rw [mem_schemaQueryRows] at hr
    exact ⟨(exists_joinRow_iff cat r.table_name).mp ⟨r, hr.1, rfl⟩, hr.2⟩
  · rintro ⟨hex, hkeep⟩
    obtain ⟨r, hr, hname⟩ := (exists_joinRow_iff cat t).mpr hex
    refine ⟨r, (mem_schemaQueryRows cat tables r).mpr ⟨hr, ?_⟩, hname⟩
    rw [hname]
    exact hkeep

/-!
# Claim theorems
-/

/-- C1, counterexample: the claim also asserts that "no statement whose
leading token is not SELECT or WITH is ever returned for execution", but
the gate at line 329 is a plain prefix test.  The completion text
"WITHDRAW FUNDS" passes it (lowercased it starts with the letters
"with"), so `natural_language_to_sql` returns it as a success, although
its leading token WITHDRAW is neither SELECT nor WITH. -/
theorem nls_gate_leading_token_counterexample :
    (validateSQL "WITHDRAW FUNDS").1 = true
    ∧ (validateSQL "WITHDRAW FUNDS").2.2 = some "WITHDRAW FUNDS"
    ∧ pyLower (leadingToken "WITHDRAW FUNDS") ≠ "select"
    ∧ pyLower (leadingToken "WITHDRAW FUNDS") ≠ "with" := by decide

/-- C1 (amended): `natural_language_to_sql` returns a success outcome
carrying a SQL string only if that string is the whitespace-trimmed
completion text and, case-insensitively, starts with the letters
"select" or "with" (a prefix test, not a whole-token test); any raw
text failing the prefix test yields the Refusal triple when it equals
the fixed refusal sentinel and the Failure triple otherwise, so neither
is returned for execution. -/
theorem nls_validation_gate (raw : String) :
    (∀ sql, (validateSQL raw).2.2 = some sql →
        (validateSQL raw).1 = true ∧ sql = pyStrip raw ∧ gatePasses sql = true)
    ∧ (gatePasses (pyStrip raw) = false →
        validateSQL raw =
          if pyStrip raw = refusalSentinel
          then (false, "无法理解该问题或生成对应的SQL查询", none)
          else (false, "生成的SQL不是有效的查询语句", none)) := by
  constructor
  · intro sql hsql
    simp only [validateSQL] at hsql
    by_cases h : gatePasses (pyStrip raw) = true
    · rw [if_pos h] at hsql
      simp only [Option.some.injEq] at hsql
      subst hsql
      exact ⟨by simp [validateSQL, h], rfl, h⟩
    · rw [if_neg h] at hsql
      by_cases h2 : pyStrip raw = refusalSentinel
      · rw [if_pos h2] at hsql; simp at hsql
      · rw [if_neg h2] at hsql; simp at hsql
  · intro hg
    simp only [validateSQL]
    rw [if_neg (by simp [hg])]

/-- Witness for C1: a plain SELECT passes the gate, and the DROP
statement of the claim's example is rejected as a Failure. -/
theorem nls_validation_gate_witness :
    ((validateSQL " SELECT 1 FROM DUAL ").1 = true
      ∧ "SELECT 1 FROM DUAL" = pyStrip " SELECT 1 FROM DUAL "
      ∧ gatePasses "SELECT 1 FROM DUAL" = true)
    ∧ validateSQL "DROP TABLE foo" = (false, "生成的SQL不是有效的查询语句", none) := by
  constructor
  · exact (nls_validation_gate " SELECT 1 FROM DUAL ").1 "SELECT 1 FROM DUAL"
      (by decide)
  · have h := (nls_validation_gate "DROP TABLE foo").2 (by decide)
    rw [if_neg (by decide)] at h
    exact h

/-- C6: when the cursor carries a result set, `execute_sql` returns the
cursor's column names and all rows fully materialized with the
affected-row count `none`; when it does not, the returned data carries
the engine-reported row count unchanged (so the driver's `-1` "unknown"
sentinel stays distinguishable from `0`). -/
theorem execute_sql_result_shape (cur : Cursor) (elapsed : Nat) :
    (descTruthy cur = true →
        execute_sql (.ok cur) elapsed =
          (true, "执行成功",
            some ⟨cur.description.getD [], cur.rows, elapsed, none⟩))
    ∧ (descTruthy cur = false →
        execute_sql (.ok cur) elapsed =
          (true, "执行成功", some ⟨[], [], elapsed, some cur.rowcount⟩)) := by
  constructor <;> intro h <;> simp [execute_sql, h]

/-- Witness for C6: the spec's round-trip example (one column, one row,
value 1, `affected_rows = none`) and a rowless statement with the
unknown sentinel `-1` preserved. -/
theorem execute_sql_result_shape_witness :
    execute_sql (.ok ⟨some ["1"], [[.intV 1]], -1⟩) 5 =
      (true, "执行成功", some ⟨["1"], [[.intV 1]], 5, none⟩)
    ∧ execute_sql (.ok ⟨none, [], -1⟩) 7 =
      (true, "执行成功", some ⟨[], [], 7, some (-1)⟩) := by
  constructor
  · have h := (execute_sql_result_shape ⟨some ["1"], [[.intV 1]], -1⟩ 5).1
      (by decide)
    simpa using h
  · exact (execute_sql_result_shape ⟨none, [], -1⟩ 7).2 (by decide)

/-- C9: whenever the driver raises an exception inside `test_connection`
or `execute_sql`, the Gateway converts it to the triple
`(false, message, none)` instead of re-raising. -/
theorem gateway_converts_driver_faults (e : String) (elapsed : Nat) :
    test_connection (.error e) = (false, e, none)
    ∧ execute_sql (.error e) elapsed = (false, e, none) :=
  ⟨rfl, rfl⟩

/-- C10: for every public operation returning a `(success, message,
data)` triple — `test_connection`, `execute_sql`, `analyze_query`,
`get_schema_info` and `natural_language_to_sql` — the data component is
non-null exactly when the success flag is true. -/
theorem success_iff_payload (td : Except String TestData)
    (drv : Except String Cursor) (elapsed : Nat)
    (aResp : Except String String) (gw : Except String (List SchemaRow))
    (sResp : Except String String) :
    ((test_connection td).1 = true ↔ ((test_connection td).2.2).isSome = true)
    ∧ ((execute_sql drv elapsed).1 = true ↔
        ((execute_sql drv elapsed).2.2).isSome = true)
    ∧ ((analyze_query aResp).1 = true ↔
        ((analyze_query aResp).2.2).isSome = true)
    ∧ ((get_schema_info gw).1 = true ↔
        ((get_schema_info gw).2.2).isSome = true)
    ∧ ((natural_language_to_sql aResp gw sResp).1 = true ↔
        ((natural_language_to_sql aResp gw sResp).2.2).isSome = true) := by
  refine ⟨?_, ?_, ?_, ?_, ?_⟩
  · cases td <;> simp [test_connection]
  · cases drv <;> simp [execute_sql]
  · cases aResp with
    | error e => simp [analyze_query]
    | ok raw =>
      simp only [analyze_query]
      by_cases h : (parsedTables (pyStrip raw)).isEmpty = true <;> simp [h]
  · cases gw <;> simp [get_schema_info]
  · simp only [natural_language_to_sql]
    cases aResp with
    | error e => simp [analyze_query]
    | ok raw =>
      simp only [analyze_query]
      by_cases h : (parsedTables (pyStrip raw)).isEmpty = true
      · simp [h]
      · simp only [h, if_false, Bool.not_true, Bool.false_eq_true]
        cases gw with
        | error m => simp [get_schema_info]
        | ok rows =>
          simp only [get_schema_info]
          cases sResp with
          | error e => simp
          | ok raw2 => simpa using validateSQL_success_iff raw2

/-- C3, counterexample: on the "unknown" sentinel response the code
returns `(false, "无法确定查询涉及的表", none)` — the same failure flag and
the same null payload as a transport-error outcome — not a distinct
empty-result success that callers could branch on structurally. -/
theorem analyze_unknown_counterexample :
    analyze_query (.ok "未知") = (false, "无法确定查询涉及的表", none)
    ∧ (analyze_query (.ok "未知")).1 =
        (analyze_query (.error "connection reset")).1
    ∧ (analyze_query (.ok "未知")).2.2 =
        (analyze_query (.error "connection reset")).2.2 := by
  decide

/-- C3 (amended): when the response is the unknown sentinel or parses to
an empty collection, `analyze_query` returns the fixed triple
`(false, "无法确定查询涉及的表", none)`; this shares the failure flag and the
null payload with the transport-error outcome, and is distinguishable
from it only by the message text: every transport-error message starts
with "分析查询失败" while the fixed no-tables message does not, so the two
messages never coincide. -/
theorem analyze_no_tables_outcome (raw e : String) :
    (parsedTables (pyStrip raw) = [] →
        analyze_query (.ok raw) = (false, "无法确定查询涉及的表", none))
    ∧ pyStartsWith (analyze_query (.error e)).2.1 "分析查询失败" = true
    ∧ pyStartsWith "无法确定查询涉及的表" "分析查询失败" = false
    ∧ (analyze_query (.error e)).2.1 ≠ "无法确定查询涉及的表" := by
  refine ⟨?_, ?_, ?_, ?_⟩
  · intro h
    simp [analyze_query, h]
  · exact pyStartsWith_of_append "分析查询失败: " e "分析查询失败" (by decide)
  · decide
  · intro hEq
    have h1 : pyStartsWith (analyze_query (.error e)).2.1 "分析查询失败" = true :=
      pyStartsWith_of_append "分析查询失败: " e "分析查询失败" (by decide)
    rw [hEq] at h1
    exact absurd h1 (by decide)

/-- Witness for C3: an all-whitespace (non-sentinel) response parses to
no tables and yields the fixed no-tables triple; a transport error
yields a message distinct from it. -/
theorem analyze_no_tables_outcome_witness :
    analyze_query (.ok " \n ") = (false, "无法确定查询涉及的表", none)
    ∧ (analyze_query (.error "boom")).2.1 ≠ "无法确定查询涉及的表" := by
  constructor
  · exact (analyze_no_tables_outcome " \n " "boom").1 (by decide)
  · exact (analyze_no_tables_outcome " \n " "boom").2.2.2

/-- C8, counterexample: the parsed names are returned as a Python list,
not a set — the two-line response " emp \nemp" parses to
["EMP", "EMP"], which contains a duplicate entry. -/
theorem analyze_parse_duplicates_counterexample :
    pyLower (pyStrip " emp \nemp") ≠ unknownSentinel
    ∧ parsedTables (pyStrip " emp \nemp") = ["EMP", "EMP"]
    ∧ ¬ (parsedTables (pyStrip " emp \nemp")).Nodup
    ∧ analyze_query (.ok " emp \nemp") =
        (true, "识别到相关表: EMP, EMP", some ["EMP", "EMP"]) := by
  decide

/-- C8 (amended): for every non-sentinel response, `analyze_query`
parses one table name per non-empty line — each whitespace-trimmed and
uppercase-normalized — and returns them as a list in line order
(duplicates preserved, no set conversion); a name is in the result
exactly when some line of the stripped response trims to a non-empty
string whose uppercasing it is, and a non-empty parse is returned as
the success payload. -/
theorem analyze_parse_lines (raw : String)
    (h : pyLower (pyStrip raw) ≠ unknownSentinel) :
    parsedTables (pyStrip raw) =
      ((splitChar '\n' (pyStrip raw).data).filter
          (fun line => !(trimChars line).isEmpty)).map
        (fun line => pyUpper ⟨trimChars line⟩)
    ∧ (∀ s, s ∈ parsedTables (pyStrip raw) ↔
        ∃ line ∈ splitChar '\n' (pyStrip raw).data,
          (trimChars line).isEmpty = false ∧ s = pyUpper ⟨trimChars line⟩)
    ∧ (parsedTables (pyStrip raw) ≠ [] →
        analyze_query (.ok raw) =
          (true, "识别到相关表: " ++ joinComma (parsedTables (pyStrip raw)),
            some (parsedTables (pyStrip raw)))) := by
  refine ⟨?_, ?_, ?_⟩
  · simp [parsedTables, parsedLines, h]
  · intro s
    simp only [parsedTables, h, if_false, parsedLines, List.mem_map,
      List.mem_filter, Bool.not_eq_true']
    constructor
    · rintro ⟨line, ⟨hmem, hne⟩, rfl⟩
      exact ⟨line, hmem, hne, rfl⟩
    · rintro ⟨line, hmem, hne, rfl⟩
      exact ⟨line, ⟨hmem, hne⟩, rfl⟩
  · intro hne
    have hE : (parsedTables (pyStrip raw)).isEmpty = false := by
      cases hcase : (parsedTables (pyStrip raw)).isEmpty
      · rfl
      · exact absurd (List.isEmpty_iff.mp hcase) hne
    simp [analyze_query, hE]

/-- Witness for C8: a two-line response parses to the trimmed,
uppercased names in line order and is returned as the success payload. -/
theorem analyze_parse_lines_witness :
    parsedTables (pyStrip " emp \ndept") = ["EMP", "DEPT"]
    ∧ analyze_query (.ok " emp \ndept") =
        (true, "识别到相关表: EMP, DEPT", some ["EMP", "DEPT"]) := by
  constructor
  · rw [(analyze_parse_lines " emp \ndept" (by decide)).1]
    decide
  · rw [(analyze_parse_lines " emp \ndept" (by decide)).2.2 (by decide)]
    decide

/-- C5, counterexample: the SSL context is built exactly once, in
`__init__` (the allocation counter advances only there), and
`get_connection_params` hands that same cached handle to every
subsequent gateway call — two successive calls observe the identical
context — whereas per-call reconstruction, as the claim describes
(`specReconstructParams`), would carry a fresh context on each call. -/
theorem ssl_context_cached_counterexample :
    ((initADB "admin" "pw" "dsn" 0).1.ssl_context.id = 0
      ∧ (initADB "admin" "pw" "dsn" 0).2 = 1)
    ∧ (get_connection_params
          (stepState (initADB "admin" "pw" "dsn" 0) .testConn).1).ssl_context =
        (get_connection_params
          (stepState (stepState (initADB "admin" "pw" "dsn" 0) .testConn)
            (.execSql "SELECT 1 FROM DUAL")).1).ssl_context
    ∧ (stepState (stepState (initADB "admin" "pw" "dsn" 0) .testConn)
        (.execSql "SELECT 1 FROM DUAL")).2 = 1
    ∧ (specReconstructParams (initADB "admin" "pw" "dsn" 0).1
        (initADB "admin" "pw" "dsn" 0).2).1.ssl_context.id = 1
    ∧ (get_connection_params (initADB "admin" "pw" "dsn" 0).1).ssl_context ≠
        (specReconstructParams (initADB "admin" "pw" "dsn" 0).1
          (initADB "admin" "pw" "dsn" 0).2).1.ssl_context := by
  decide

/-- C5 (amended): the connection profile (username, password, connect
string) is never mutated after construction — any sequence of gateway
operations leaves the object state and the allocation counter unchanged
— but the SSL transport state is not reconstructed per call:
`get_connection_params` always returns the context cached at
construction time. -/
theorem adb_profile_immutable (u p cs : String) (a : Nat)
    (ops : List GatewayOp) :
    ops.foldl stepState (initADB u p cs a) = initADB u p cs a
    ∧ ((initADB u p cs a).1.username = u ∧ (initADB u p cs a).1.password = p
       ∧ (initADB u p cs a).1.connect_string = cs)
    ∧ (∀ s : ADBState, (get_connection_params s).ssl_context = s.ssl_context) := by
  refine ⟨?_, ⟨rfl, rfl, rfl⟩, fun s => rfl⟩
  induction ops with
  | nil => rfl
  | cons op ops ih => exact ih

/-- C2, counterexample: table "EMP" is in the catalog with no matching
rows in `user_tab_columns`, yet — because of the LEFT JOIN — the
introspection query still yields one all-NULL row for it, and
`get_schema_info` does list "EMP" as a key (with a placeholder column
whose fields are null). -/
theorem schema_no_columns_key_counterexample :
    (Catalog.user_tab_columns ⟨[⟨"EMP"⟩], [], [], []⟩).filter
        (fun c => c.table_name == "EMP") = []
    ∧ (get_schema_info_cat ⟨[⟨"EMP"⟩], [], [], []⟩ none).2.2 =
        some [("EMP", ⟨"", [⟨none, none, none, false, ""⟩]⟩)]
    ∧ hasKey ((get_schema_info_cat ⟨[⟨"EMP"⟩], [], [], []⟩ none).2.2.getD [])
        "EMP" = true := by
  decide

/-- C2 (amended): a table with no matching catalog row — absent from
`user_tables` or excluded by the table filter — never appears as a key;
but a table that merely has no matching columns does still appear
(the LEFT JOIN keeps it with a placeholder column): a key is present in
the returned SchemaDescription exactly when the table is in
`user_tables` and passes the filter. -/
theorem schema_keys_iff_catalog_tables (cat : Catalog)
    (tables : Option (List String)) (t : String) :
    hasKey ((get_schema_info_cat cat tables).2.2.getD []) t = true ↔
      (∃ tr ∈ cat.user_tables, tr.table_name = t)
        ∧ keepTable tables t = true :=
  hasKey_schemaQuery cat tables t

/-- C4, counterexample: the keys of the SchemaDescription are taken
verbatim from `row[0]` with no case normalization — two catalog rows
"Emp" and "EMP", differing only in letter case, produce two distinct
keys in the same result instead of mapping to one. -/
theorem schema_keys_case_counterexample :
    pyUpper "Emp" = pyUpper "EMP"
    ∧ "Emp" ≠ "EMP"
    ∧ ((get_schema_info_cat ⟨[⟨"Emp"⟩, ⟨"EMP"⟩], [], [], []⟩ none).2.2.getD
        []).map Prod.fst = ["EMP", "Emp"] := by
  decide

/-- C4 (amended): the SchemaDescription keys are the result rows' table
names verbatim — a string is a key exactly when some result row carries
exactly that (case-sensitive) string — so catalog rows whose names
differ only in case produce distinct keys rather than being
case-normalized into one entry. -/
theorem schema_keys_verbatim (rows : List SchemaRow) (t : String) :
    hasKey (buildSchemaInfo rows) t = true ↔
      t ∈ rows.map SchemaRow.table_name := by
  rw [hasKey_buildSchemaInfo, List.mem_map]

/-- C7: with a provided single-name filter, `get_schema_info` restricts
the catalog query to exactly that name: when a table with exactly that
name exists in `user_tables`, the name is a key of the returned mapping
and is its only key; when no such table exists, the operation still
succeeds and the mapping is empty.  (The IN-list is interpolated
verbatim at line 240; the model gives it its SQL set-membership meaning,
exact for names containing no quote character.) -/
theorem schema_single_table_filter (cat : Catalog) (t : String) :
    ((∃ tr ∈ cat.user_tables, tr.table_name = t) →
        hasKey ((get_schema_info_cat cat (some [t])).2.2.getD []) t = true
        ∧ ∀ k, hasKey ((get_schema_info_cat cat (some [t])).2.2.getD []) k =
            true → k = t)
    ∧ ((∀ tr ∈ cat.user_tables, tr.table_name ≠ t) →
        (get_schema_info_cat cat (some [t])).1 = true
        ∧ (get_schema_info_cat cat (some [t])).2.2 = some []) := by
  constructor
  · intro hex
    constructor
    · exact (hasKey_schemaQuery cat (some [t]) t).mpr
        ⟨hex, (keepTable_single t t).mpr rfl⟩
    · intro k hk
      exact (keepTable_single t k).mp
        ((hasKey_schemaQuery cat (some [t]) k).mp hk).2
  · intro hno
    have hfil : (joinRows cat).filter
        (fun r => keepTable (some [t]) r.table_name) = [] := by
      rw [List.filter_eq_nil_iff]
      intro r hr hkeep
      obtain ⟨tr, htr, heq⟩ := mem_joinRows_name cat r hr
      refine hno tr htr ?_
      rw [← heq]
      exact (keepTable_single t r.table_name).mp hkeep
    refine ⟨rfl, ?_⟩
    show some (buildSchemaInfo (schemaQueryRows cat (some [t]))) = some []
    simp only [schemaQueryRows, hfil]
    rfl

/-- Witness for C7: a catalog where EMPLOYEES exists (its key is
returned) and one where it does not (the call succeeds with an empty
mapping). -/
theorem schema_single_table_filter_witness :
    hasKey ((get_schema_info_cat
        ⟨[⟨"EMPLOYEES"⟩], [], [⟨"EMPLOYEES", "ID", "NUMBER", 22, "N", 1⟩], []⟩
        (some ["EMPLOYEES"])).2.2.getD []) "EMPLOYEES" = true
    ∧ (get_schema_info_cat ⟨[⟨"DEPT"⟩], [], [], []⟩
        (some ["EMPLOYEES"])).1 = true
    ∧ (get_schema_info_cat ⟨[⟨"DEPT"⟩], [], [], []⟩
        (some ["EMPLOYEES"])).2.2 = some [] := by
  refine ⟨?_, ?_⟩
  · exact ((schema_single_table_filter
      ⟨[⟨"EMPLOYEES"⟩], [], [⟨"EMPLOYEES", "ID", "NUMBER", 22, "N", 1⟩], []⟩
      "EMPLOYEES").1 (by decide)).1
  · exact (schema_single_table_filter ⟨[⟨"DEPT"⟩], [], [], []⟩
      "EMPLOYEES").2 (by decide)

end PyADB
